import Mathlib

/-!
Verification of the eip4844-playground scripts.

The repository consists of demonstration scripts (a viem-based experiment
script `src/index.ts`, and an ethers-based sender plus further viem scripts)
that delegate all cryptography (KZG commitments, proofs, cell recovery,
SHA-256) and all network interaction to external libraries.  We embed the
scripts' own logic shallowly: byte buffers are `List Nat` (each entry a byte
value below 256), hex strings are Lean `String`s, external library functions
are taken as function parameters (oracles), and a script fragment that can
throw is a function into `Except String α` whose `error` carries the thrown
message.
-/

/-! ## JavaScript string and hex primitives used by the scripts -/

/-- Model of JavaScript `String.prototype.toLowerCase` on one ASCII
character: uppercase `A`-`Z` maps to `a`-`z`, everything else is fixed.
The scripts only lowercase `0x`-prefixed hex strings, which are ASCII. -/
def jsCharToLower (c : Char) : Char :=
  if 'A' ≤ c ∧ c ≤ 'Z' then Char.ofNat (c.toNat + 32) else c

/-- Model of JavaScript `String.prototype.toLowerCase` (ASCII range). -/
def jsToLower (s : String) : String :=
  String.mk (s.data.map jsCharToLower)

/-- `equalHex` from `src/index.ts` (also in the other scripts):
`a.toLowerCase() === b.toLowerCase()`. -/
def equalHex (a b : String) : Bool :=
  jsToLower a == jsToLower b

/-- Lower-case hex digit for a value below 16, as produced by the
libraries' byte-to-hex encoders (`viem.bytesToHex`, `ethers.hexlify`). -/
def hexDigit (n : Nat) : Char :=
  if n < 10 then Char.ofNat (48 + n) else Char.ofNat (87 + n)

/-- Two lower-case hex digits of one byte. -/
def byteToHex (b : Nat) : List Char :=
  [hexDigit (b / 16), hexDigit (b % 16)]

/-- Model of `viem.bytesToHex` / `ethers.hexlify`: `0x` followed by two
lower-case hex digits per byte. -/
def bytesToHex (bs : List Nat) : String :=
  "0x" ++ String.mk ((bs.map byteToHex).flatten)

/-- Numeric value of one hex digit character (either case). -/
def hexDigitToNat (c : Char) : Nat :=
  if '0' ≤ c ∧ c ≤ '9' then c.toNat - 48
  else if 'a' ≤ c ∧ c ≤ 'f' then c.toNat - 87
  else if 'A' ≤ c ∧ c ≤ 'F' then c.toNat - 55
  else 0

/-- Consume characters two at a time, one byte per pair. -/
def hexPairs : List Char → List Nat
  | h :: l :: rest => (16 * hexDigitToNat h + hexDigitToNat l) :: hexPairs rest
  | _ => []

/-- Model of `viem.hexToBytes`: strip the `0x` and read hex-digit pairs. -/
def hexToBytes (s : String) : List Nat :=
  hexPairs (s.data.drop 2)

/-! ### Basic lemmas about the hex encoding -/

theorem hexDigitToNat_hexDigit {n : Nat} (h : n < 16) :
    hexDigitToNat (hexDigit n) = n := by
  interval_cases n <;> decide

theorem hexPairs_byteToHex_flatten {l : List Nat} (h : ∀ b ∈ l, b < 256) :
    hexPairs ((l.map byteToHex).flatten) = l := by
  induction l with
  | nil => rfl
  | cons b t ih =>
    have hb : b < 256 := h b (List.mem_cons_self b t)
    have hdiv : b / 16 < 16 := Nat.div_lt_of_lt_mul (by omega)
    have hmod : b % 16 < 16 := Nat.mod_lt _ (by omega)
    have ht : ∀ x ∈ t, x < 256 := fun x hx => h x (List.mem_cons_of_mem _ hx)
    have : ((b :: t).map byteToHex).flatten =
        hexDigit (b / 16) :: hexDigit (b % 16) :: (t.map byteToHex).flatten := by
      simp [byteToHex]
    rw [this, hexPairs, ih ht,
      hexDigitToNat_hexDigit hdiv, hexDigitToNat_hexDigit hmod]
    congr 1
    omega

theorem data_bytesToHex (bs : List Nat) :
    (bytesToHex bs).data = '0' :: 'x' :: (bs.map byteToHex).flatten := rfl

/-- Round trip: decoding the hex encoding of a valid byte list recovers it. -/
theorem hexToBytes_bytesToHex {l : List Nat} (h : ∀ b ∈ l, b < 256) :
    hexToBytes (bytesToHex l) = l := by
  simp only [hexToBytes, data_bytesToHex, List.drop_succ_cons, List.drop_zero]
  exact hexPairs_byteToHex_flatten h

theorem jsCharToLower_hexDigit {n : Nat} (h : n < 16) :
    jsCharToLower (hexDigit n) = hexDigit n := by
  interval_cases n <;> decide

/-- Hex encodings contain no uppercase letters, so lowercasing fixes them. -/
theorem map_jsCharToLower_hex {l : List Nat} (h : ∀ b ∈ l, b < 256) :
    ((l.map byteToHex).flatten).map jsCharToLower = (l.map byteToHex).flatten := by
  induction l with
  | nil => rfl
  | cons b t ih =>
    have hb : b < 256 := h b (List.mem_cons_self b t)
    have hdiv : b / 16 < 16 := Nat.div_lt_of_lt_mul (by omega)
    have hmod : b % 16 < 16 := Nat.mod_lt _ (by omega)
    have ht : ∀ x ∈ t, x < 256 := fun x hx => h x (List.mem_cons_of_mem _ hx)
    have hc : ((b :: t).map byteToHex).flatten =
        hexDigit (b / 16) :: hexDigit (b % 16) :: (t.map byteToHex).flatten := by
      simp [byteToHex]
    rw [hc, List.map_cons, List.map_cons, ih ht,
      jsCharToLower_hexDigit hdiv, jsCharToLower_hexDigit hmod]

theorem jsToLower_bytesToHex {l : List Nat} (h : ∀ b ∈ l, b < 256) :
    jsToLower (bytesToHex l) = bytesToHex l := by
  have h0 : jsCharToLower '0' = '0' := by decide
  have hx : jsCharToLower 'x' = 'x' := by decide
  show String.mk ((bytesToHex l).data.map jsCharToLower) = bytesToHex l
  rw [data_bytesToHex, List.map_cons, List.map_cons, h0, hx,
    map_jsCharToLower_hex h]
  rfl

theorem equalHex_iff (a b : String) :
    equalHex a b = true ↔ jsToLower a = jsToLower b := by
  simp [equalHex]

theorem equalHex_refl (a : String) : equalHex a a = true :=
  (equalHex_iff a a).mpr rfl

/-- On valid byte lists, hex-string comparison through `equalHex` is exactly
equality of the byte lists. -/
theorem equalHex_bytesToHex_iff {a b : List Nat}
    (ha : ∀ x ∈ a, x < 256) (hb : ∀ x ∈ b, x < 256) :
    equalHex (bytesToHex a) (bytesToHex b) = true ↔ a = b := by
  rw [equalHex_iff, jsToLower_bytesToHex ha, jsToLower_bytesToHex hb]
  constructor
  · intro h
    have := congrArg hexToBytes h
    rwa [hexToBytes_bytesToHex ha, hexToBytes_bytesToHex hb] at this
  · intro h; rw [h]

example : equalHex "0xAB" "0xab" = true := by decide
example : equalHex "0xab" "0xcd" = false := by decide
example : bytesToHex [1, 255] = "0x01ff" := by decide
example : hexToBytes "0x01ff" = [1, 255] := by decide

/-! ## Constants of the scripts -/

/-- `const VERSIONED_HASH_VERSION_KZG = hexToBytes('0x01')` from
`src/index.ts` line 28 (same in the second viem script). -/
def VERSIONED_HASH_VERSION_KZG : List Nat := hexToBytes "0x01"

/-- The `c-kzg` export `CELLS_PER_EXT_BLOB` used by experiments 7 and 8;
its EIP-7594 value is 128, consistent with the scripts' hard-coded
`slice(64, 128)` over the cell array. -/
def CELLS_PER_EXT_BLOB : Nat := 128

/-- `viem.sha256` applied to a byte array returns the digest as a hex
string; the digest function itself is an external oracle `sha`. -/
def sha256Hex (sha : List Nat → List Nat) (bs : List Nat) : String :=
  bytesToHex (sha bs)

/-- JavaScript `Array.prototype.slice(a, b)`: the elements at positions
`a` up to (excluding) `b`. -/
def jsSlice {α : Type} (l : List α) (a b : Nat) : List α :=
  (l.drop a).take (b - a)

/-! ## Experiment 1 (viem scripts): commitment, proof and the
transaction-preparation call

Experiment 1 computes `commitment = bytesToHex(cKzg.blobToKzgCommitment(
hexToBytes(blob)))` and `proof = bytesToHex(cKzg.computeBlobKzgProof(
hexToBytes(blob), hexToBytes(commitment)))`, then obtains
`versionedHash = request.blobVersionedHashes![0]` from the external
`prepareTransactionRequest` call, which we treat as an oracle value. -/

def experiment1Commitment (blobToKzgCommitment : List Nat → List Nat)
    (blob : String) : String :=
  bytesToHex (blobToKzgCommitment (hexToBytes blob))

def experiment1Proof (blobToKzgCommitment : List Nat → List Nat)
    (computeBlobKzgProof : List Nat → List Nat → List Nat)
    (blob : String) : String :=
  bytesToHex (computeBlobKzgProof (hexToBytes blob)
    (hexToBytes (experiment1Commitment blobToKzgCommitment blob)))

/-! ## Experiment 2: manual blob versioned hash -/

/-- Experiment 2 of the viem scripts (`src/index.ts` lines 130-144):
recompute the commitment, hash it with SHA-256, overwrite byte 0 with
`VERSIONED_HASH_VERSION_KZG[0]`, and compare against the versioned hash
obtained from `prepareTransactionRequest` in experiment 1; on mismatch
throw `versioned hash mismatch`. -/
def experiment2 (blobToKzgCommitment : List Nat → List Nat)
    (sha : List Nat → List Nat) (blob versionedHash : String) :
    Except String Unit :=
  let commitment := blobToKzgCommitment (hexToBytes blob)
  let vh0 := hexToBytes (sha256Hex sha commitment)
  let vh := vh0.set 0 (VERSIONED_HASH_VERSION_KZG.getD 0 0)
  if equalHex (bytesToHex vh) versionedHash = false then
    Except.error "versioned hash mismatch"
  else
    Except.ok ()

/-! ## Experiment 3, second block: verification with proof -/

/-- The proof-based half of experiment 3 (`src/index.ts` lines 167-186):
recompute the versioned hash from the stored commitment hex, run
`verifyBlobKzgProof`, throw `Versioned hash mismatch` if the hash check
fails and `Proof verification failed` if the verification returned false. -/
def experiment3WithProof (sha : List Nat → List Nat)
    (verifyBlobKzgProof : List Nat → List Nat → List Nat → Bool)
    (blob commitment proof versionedHash : String) : Except String Unit :=
  let vh0 := hexToBytes (sha256Hex sha (hexToBytes commitment))
  let vh := vh0.set 0 (VERSIONED_HASH_VERSION_KZG.getD 0 0)
  let isValid := verifyBlobKzgProof (hexToBytes blob) (hexToBytes commitment)
    (hexToBytes proof)
  if equalHex (bytesToHex vh) versionedHash = false then
    Except.error "Versioned hash mismatch"
  else if isValid = false then
    Except.error "Proof verification failed"
  else
    Except.ok ()

/-! ## Experiment 4: point verification, result only logged -/

/-- Experiment 4 of `src/index.ts` (lines 195-221): compute a point proof
at `z = hexToBytes(blob).slice(0, 32)`, call `verifyKzgProof(commitment, z,
PointProof[1], PointProof[0])`, and log the boolean result.  The script
never throws here; the embedded fragment returns the logged boolean. -/
def experiment4 (computeKzgProof : List Nat → List Nat → List Nat × List Nat)
    (verifyKzgProof : List Nat → List Nat → List Nat → List Nat → Bool)
    (blob commitment : String) : Except String Bool :=
  let zBytes := jsSlice (hexToBytes blob) 0 32
  let pointProof := computeKzgProof (hexToBytes blob) zBytes
  let isValid := verifyKzgProof (hexToBytes commitment) zBytes
    pointProof.2 pointProof.1
  Except.ok isValid

/-! ## Experiment 6: native c-kzg versus WASM kzg -/

/-- First block of experiment 6 (`src/index.ts` lines 265-280): recompute
commitment and proof with the native `c-kzg` backend and compare with the
values stored in experiment 1. -/
def experiment6Native (blobToKzgCommitment : List Nat → List Nat)
    (computeBlobKzgProof : List Nat → List Nat → List Nat)
    (blob commitment proof : String) : Except String Unit :=
  let c := blobToKzgCommitment (hexToBytes blob)
  let p := computeBlobKzgProof (hexToBytes blob) c
  if equalHex (bytesToHex c) commitment = false then
    Except.error "Commitment mismatch"
  else if equalHex (bytesToHex p) proof = false then
    Except.error "Proof mismatch"
  else
    Except.ok ()

/-- Second block of experiment 6 (`src/index.ts` lines 282-294): compute
commitment and proof with the WASM backend (hex-string interface) and
compare with the values stored in experiment 1. -/
def experiment6Wasm (blobToKZGCommitment : String → String)
    (computeBlobKZGProof : String → String → String)
    (blob commitment proof : String) : Except String Unit :=
  let c := blobToKZGCommitment blob
  let p := computeBlobKZGProof blob c
  if equalHex c commitment = false then
    Except.error "Commitment mismatch"
  else if equalHex p proof = false then
    Except.error "Proof mismatch"
  else
    Except.ok ()

/-- Experiment 6 in full: the native block runs first; if it does not
throw, the WASM block runs. -/
def experiment6 (blobToKzgCommitment : List Nat → List Nat)
    (computeBlobKzgProof : List Nat → List Nat → List Nat)
    (blobToKZGCommitment : String → String)
    (computeBlobKZGProof : String → String → String)
    (blob commitment proof : String) : Except String Unit :=
  (experiment6Native blobToKzgCommitment computeBlobKzgProof
      blob commitment proof).bind
    (fun _ => experiment6Wasm blobToKZGCommitment computeBlobKZGProof
      blob commitment proof)

/-! ## Experiment 7: cell proof batch verification -/

/-- Experiment 7 of the second viem script (`part_000` lines 377-406):
compute cells and proofs, duplicate the commitment across
`CELLS_PER_EXT_BLOB` entries, verify the batch, and throw
`Proof verification failed` on a false result. -/
def experiment7 (computeCellsAndKzgProofs :
      List Nat → List (List Nat) × List (List Nat))
    (verifyCellKzgProofBatch :
      List (List Nat) → List Nat → List (List Nat) → List (List Nat) → Bool)
    (blob commitment : String) : Except String Unit :=
  let cellsProofs := computeCellsAndKzgProofs (hexToBytes blob)
  let indices := List.range CELLS_PER_EXT_BLOB
  let dupCommitments :=
    List.replicate CELLS_PER_EXT_BLOB (hexToBytes commitment)
  let isValid := verifyCellKzgProofBatch dupCommitments indices
    cellsProofs.1 cellsProofs.2
  if isValid = false then
    Except.error "Proof verification failed"
  else
    Except.ok ()

/-! ## Experiment 8: cell recovery -/

/-- The per-index comparison loop of experiment 8: for each index in the
list, compare the recovered cell with the original cell under `equalHex`
of their hex encodings, throwing `Cell mismatch` at the first difference. -/
def checkRecoveredCells (recovered cells : List (List Nat)) :
    List Nat → Except String Unit
  | [] => Except.ok ()
  | i :: rest =>
    if equalHex (bytesToHex (recovered.getD i []))
        (bytesToHex (cells.getD i [])) = false then
      Except.error "Cell mismatch"
    else
      checkRecoveredCells recovered cells rest

/-- Experiment 8 of the second viem script (`part_000` lines 408-442):
compute cells from the blob, recover all cells from the subset at indices
`slice(64, 128)`, and compare every recovered cell with the original. -/
def experiment8 (computeCellsAndKzgProofs :
      List Nat → List (List Nat) × List (List Nat))
    (recoverCellsAndKzgProofs :
      List Nat → List (List Nat) → List (List Nat) × List (List Nat))
    (blob : String) : Except String Unit :=
  let cells := (computeCellsAndKzgProofs (hexToBytes blob)).1
  let indices := List.range CELLS_PER_EXT_BLOB
  let recovered := (recoverCellsAndKzgProofs (jsSlice indices 64 128)
    (jsSlice cells 64 128)).1
  checkRecoveredCells recovered cells (List.range CELLS_PER_EXT_BLOB)

/-! ## Module-level PRIVATE_KEY handling

The environment variable is `none` when unset; JavaScript treats both the
absent value and the empty string as falsy. -/

/-- The viem scripts' guard (`src/index.ts` lines 24-26 and the analogous
guards in `part_000`): `if (!process.env.PRIVATE_KEY) throw new Error(
'PRIVATE_KEY is not set')`, then `privateKey = process.env.PRIVATE_KEY`. -/
def viemPrivateKeyInit (env : Option String) : Except String String :=
  match env with
  | none => Except.error "PRIVATE_KEY is not set"
  | some s =>
    if s = "" then Except.error "PRIVATE_KEY is not set" else Except.ok s

/-- The ethers script's initialisation (`part_000` line 14):
`const privateKey = process.env.PRIVATE_KEY || ''` — no throw, the missing
secret is replaced by the empty string. -/
def ethersPrivateKeyInit (env : Option String) : Except String String :=
  Except.ok (match env with
    | none => ""
    | some s => if s = "" then "" else s)

/-! ## The call sequence of `experimentWithBlob` before the blob guard -/

/-- The external calls the viem experiment scripts can make, named after
the source. -/
inductive ScriptCall where
  | createWalletClient
  | createPublicClient
  | loadTrustedSetupNative
  | loadKZGWasm
  | loadTrustedSetupWasm
  | toBlobsLocal
  | blobToKzgCommitmentCall
  | computeBlobKzgProofCall
  | computeKzgProofCall
  | verifyBlobKzgProofCall
  | verifyKzgProofCall
  | computeCellsAndKzgProofsCall
  | verifyCellKzgProofBatchCall
  | recoverCellsAndKzgProofsCall
  | sha256Call
  | prepareTransactionRequestCall
  | signTransactionCall
  | sendRawTransactionCall
  | getTransactionCall
  | publicClientCall
deriving DecidableEq

/-- Calls that perform a KZG commitment, proof, verification, cell or
recovery computation. -/
def isKzgComputeCall : ScriptCall → Bool
  | ScriptCall.blobToKzgCommitmentCall => true
  | ScriptCall.computeBlobKzgProofCall => true
  | ScriptCall.computeKzgProofCall => true
  | ScriptCall.verifyBlobKzgProofCall => true
  | ScriptCall.verifyKzgProofCall => true
  | ScriptCall.computeCellsAndKzgProofsCall => true
  | ScriptCall.verifyCellKzgProofBatchCall => true
  | ScriptCall.recoverCellsAndKzgProofsCall => true
  | _ => false

/-- Calls into one of the KZG libraries, including trusted-setup loading
(`cKzg.loadTrustedSetup`, `loadKZG`, `wasmKzg.loadTrustedSetup`). -/
def isKzgLibraryCall (c : ScriptCall) : Bool :=
  isKzgComputeCall c ||
    (c == ScriptCall.loadTrustedSetupNative ||
     c == ScriptCall.loadKZGWasm ||
     c == ScriptCall.loadTrustedSetupWasm)

/-- Calls that reach the network (JSON-RPC). `prepareTransactionRequest`
fills nonce and fees over RPC. -/
def isNetworkCall : ScriptCall → Bool
  | ScriptCall.prepareTransactionRequestCall => true
  | ScriptCall.sendRawTransactionCall => true
  | ScriptCall.getTransactionCall => true
  | ScriptCall.publicClientCall => true
  | _ => false

/-- The calls `experimentWithBlob` performs before the blob-count guard,
in source order (`src/index.ts` lines 39-56): the two client
constructions, `cKzg.loadTrustedSetup`, `loadKZG()`,
`wasmKzg.loadTrustedSetup`, and `toBlobs`. -/
def callsBeforeBlobGuard : List ScriptCall :=
  [ScriptCall.createWalletClient, ScriptCall.createPublicClient,
   ScriptCall.loadTrustedSetupNative, ScriptCall.loadKZGWasm,
   ScriptCall.loadTrustedSetupWasm, ScriptCall.toBlobsLocal]

/-- The blob-count guard of both viem experiment scripts (`src/index.ts`
lines 57-60): throw unless `toBlobs` produced exactly one blob, then take
`blobs[0]`. -/
def blobGuard (blobs : List String) : Except String String :=
  if blobs.length ≠ 1 then
    Except.error "Only one blob is assumed in this example"
  else
    Except.ok (blobs.getD 0 "")

/-! ## The ethers script: blob construction and proof selection -/

/-- `BYTES_PER_FIELD_ELEMENT` as named in the comment at `part_000`
line 47. -/
def BYTES_PER_FIELD_ELEMENT : Nat := 32

/-- `FIELD_ELEMENTS_PER_BLOB` as named in the comment at `part_000`
line 47. -/
def FIELD_ELEMENTS_PER_BLOB : Nat := 4096

/-- `TypedArray.prototype.set(data, offset)` over a `List Nat` buffer:
overwrite the entries starting at `offset` with `data`. -/
def typedArraySet (buf data : List Nat) (offset : Nat) : List Nat :=
  buf.take offset ++ data ++ buf.drop (offset + data.length)

/-- Blob construction of the ethers script (`part_000` lines 47-50):
`new Uint8Array(32 * 4096)` (zero-initialised) with the payload written at
offset 0. -/
def mkEthersBlob (data : List Nat) : List Nat :=
  typedArraySet (List.replicate (32 * 4096) 0) data 0

/-- `ethers.concat` on hex strings: strip each `0x` and re-attach one. -/
def ethersConcat (xs : List String) : String :=
  "0x" ++ String.mk ((xs.map (fun s => s.data.drop 2)).flatten)

/-- The blob entry the ethers script assigns to `tx.blobs` (`part_000`
line 59). -/
structure EthersBlobEntry where
  data : String
  commitment : String
  proof : String
deriving DecidableEq

/-- The EIP-mode-dependent transaction fields set by the ethers script. -/
structure EthersTxBlobFields where
  blobWrapperVersion : Option Nat
  blobs : List EthersBlobEntry
deriving DecidableEq

/-- The blob-related part of `main` in the ethers script (`part_000`
lines 44-59): `blobWrapperVersion` is set to 1 exactly when `eip` is
`'7594'`; the proof is `computeBlobKZGProof` when `eip` is `'4844'` and
otherwise the concatenation of the `proofs` of `computeCellsAndKZGProofs`. -/
def ethersMainBlobFields (blobToKZGCommitment : String → String)
    (computeBlobKZGProof : String → String → String)
    (computeCellsAndKZGProofsProofs : String → List String)
    (eip : String) (payload : List Nat) : EthersTxBlobFields :=
  let blob := mkEthersBlob payload
  let blobHex := bytesToHex blob
  let commitment := blobToKZGCommitment blobHex
  let proof :=
    if eip = "4844" then computeBlobKZGProof blobHex commitment
    else ethersConcat (computeCellsAndKZGProofsProofs blobHex)
  { blobWrapperVersion := if eip = "7594" then some 1 else none,
    blobs := [⟨blobHex, commitment, proof⟩] }

/-! ## Concrete stand-ins for the external libraries, used to instantiate
the theorems on closed inputs -/

/-- A concrete commitment function standing in for the external backend. -/
def demoCommitOracle : List Nat → List Nat := fun _ => [2]

/-- A concrete digest function standing in for SHA-256. -/
def demoShaOracle : List Nat → List Nat := fun _ => [9, 7]

/-- A concrete blob-proof function standing in for the external backend. -/
def demoProofOracle : List Nat → List Nat → List Nat := fun _ c => c ++ [1]

/-- A concrete WASM-style commitment function over hex strings. -/
def demoWasmCommitOracle : String → String := fun _ => "0x02"

/-- A concrete WASM-style blob-proof function over hex strings. -/
def demoWasmProofOracle : String → String → String := fun _ _ => "0x0201"

/-- A concrete point-proof function standing in for `computeKzgProof`. -/
def demoPointProofOracle : List Nat → List Nat → List Nat × List Nat :=
  fun _ _ => ([], [])

/-- A point verification function that always reports failure. -/
def demoFalseVerifyPointOracle :
    List Nat → List Nat → List Nat → List Nat → Bool :=
  fun _ _ _ _ => false

/-- A blob verification function that always reports failure. -/
def demoFalseVerifyBlobOracle : List Nat → List Nat → List Nat → Bool :=
  fun _ _ _ => false

/-- A cell-batch verification function that always reports failure. -/
def demoFalseVerifyCellOracle :
    List (List Nat) → List Nat → List (List Nat) → List (List Nat) → Bool :=
  fun _ _ _ _ => false

/-- A concrete cells-and-proofs function standing in for the backend. -/
def demoCellsOracle : List Nat → List (List Nat) × List (List Nat) :=
  fun _ => ([[5]], [])

/-- A concrete recovery function standing in for the backend. -/
def demoRecoverOracle :
    List Nat → List (List Nat) → List (List Nat) × List (List Nat) :=
  fun _ _ => ([[5]], [])

/-- A concrete per-cell-proofs function for the ethers 7594 path. -/
def demoCellProofsOracle : String → List String :=
  fun _ => ["0x01", "0x02"]

/-- UTF-8 bytes of the payload string of the ethers script,
`'Long live the BLOBs!'`. -/
def ethersPayload : List Nat :=
  [76, 111, 110, 103, 32, 108, 105, 118, 101, 32,
   116, 104, 101, 32, 66, 76, 79, 66, 115, 33]

/-! ## Shared helper lemmas -/

theorem equalHex_symm {a b : String} (h : equalHex a b = true) :
    equalHex b a = true :=
  (equalHex_iff b a).mpr ((equalHex_iff a b).mp h).symm

theorem equalHex_trans {a b c : String} (h1 : equalHex a b = true)
    (h2 : equalHex b c = true) : equalHex a c = true :=
  (equalHex_iff a c).mpr (((equalHex_iff a b).mp h1).trans
    ((equalHex_iff b c).mp h2))

theorem versioned_hash_tag_eq_one : VERSIONED_HASH_VERSION_KZG.getD 0 0 = 1 := by
  decide

theorem except_bind_ok {ε α β : Type} {e : Except ε α} {f : α → Except ε β}
    {b : β} (h : e.bind f = Except.ok b) :
    ∃ a, e = Except.ok a ∧ f a = Except.ok b := by
  cases e with
  | error msg => simp [Except.bind] at h
  | ok a => exact ⟨a, rfl, h⟩

theorem except_bind_error {ε α β : Type} {e : Except ε α}
    {f : α → Except ε β} {msg : ε} (h : e.bind f = Except.error msg) :
    e = Except.error msg ∨ ∃ a, e = Except.ok a ∧ f a = Except.error msg := by
  cases e with
  | error m => left; simpa [Except.bind] using h
  | ok a => right; exact ⟨a, rfl, h⟩

theorem experiment6Native_ok_iff
    (blobToKzgCommitment : List Nat → List Nat)
    (computeBlobKzgProof : List Nat → List Nat → List Nat)
    (blob commitment proof : String) :
    experiment6Native blobToKzgCommitment computeBlobKzgProof
        blob commitment proof = Except.ok () ↔
      equalHex (bytesToHex (blobToKzgCommitment (hexToBytes blob)))
          commitment = true ∧
      equalHex (bytesToHex (computeBlobKzgProof (hexToBytes blob)
          (blobToKzgCommitment (hexToBytes blob)))) proof = true := by
  simp only [experiment6Native]
  cases h1 : equalHex (bytesToHex (blobToKzgCommitment (hexToBytes blob)))
      commitment <;>
    cases h2 : equalHex (bytesToHex (computeBlobKzgProof (hexToBytes blob)
      (blobToKzgCommitment (hexToBytes blob)))) proof <;> simp

theorem experiment6Native_error
    (blobToKzgCommitment : List Nat → List Nat)
    (computeBlobKzgProof : List Nat → List Nat → List Nat)
    (blob commitment proof : String) (e : String)
    (h : experiment6Native blobToKzgCommitment computeBlobKzgProof
      blob commitment proof = Except.error e) :
    e = "Commitment mismatch" ∨ e = "Proof mismatch" := by
  simp only [experiment6Native] at h
  rcases h1 : equalHex (bytesToHex (blobToKzgCommitment (hexToBytes blob)))
      commitment <;>
    rcases h2 : equalHex (bytesToHex (computeBlobKzgProof (hexToBytes blob)
      (blobToKzgCommitment (hexToBytes blob)))) proof <;>
    simp [h1, h2] at h <;> simp [h]

theorem experiment6Wasm_ok_iff
    (blobToKZGCommitment : String → String)
    (computeBlobKZGProof : String → String → String)
    (blob commitment proof : String) :
    experiment6Wasm blobToKZGCommitment computeBlobKZGProof
        blob commitment proof = Except.ok () ↔
      equalHex (blobToKZGCommitment blob) commitment = true ∧
      equalHex (computeBlobKZGProof blob (blobToKZGCommitment blob))
        proof = true := by
  simp only [experiment6Wasm]
  cases h1 : equalHex (blobToKZGCommitment blob) commitment <;>
    cases h2 : equalHex (computeBlobKZGProof blob (blobToKZGCommitment blob))
      proof <;> simp

theorem experiment6Wasm_error
    (blobToKZGCommitment : String → String)
    (computeBlobKZGProof : String → String → String)
    (blob commitment proof : String) (e : String)
    (h : experiment6Wasm blobToKZGCommitment computeBlobKZGProof
      blob commitment proof = Except.error e) :
    e = "Commitment mismatch" ∨ e = "Proof mismatch" := by
  simp only [experiment6Wasm] at h
  rcases h1 : equalHex (blobToKZGCommitment blob) commitment <;>
    rcases h2 : equalHex (computeBlobKZGProof blob (blobToKZGCommitment blob))
      proof <;>
    simp [h1, h2] at h <;> simp [h]

theorem checkRecoveredCells_ok_iff (recovered cells : List (List Nat))
    (is : List Nat) :
    checkRecoveredCells recovered cells is = Except.ok () ↔
      ∀ i ∈ is, equalHex (bytesToHex (recovered.getD i []))
        (bytesToHex (cells.getD i [])) = true := by
  induction is with
  | nil => simp [checkRecoveredCells]
  | cons i rest ih =>
    unfold checkRecoveredCells
    cases h : equalHex (bytesToHex (recovered.getD i []))
        (bytesToHex (cells.getD i [])) with
    | false =>
      constructor
      · intro hc
        rw [if_pos rfl] at hc
        exact Except.noConfusion hc
      · intro hall
        have hi := hall i (List.mem_cons_self i rest)
        rw [hi] at h
        exact Bool.noConfusion h
    | true =>
      rw [if_neg (by simp)]
      rw [ih]
      constructor
      · intro hrest j hj
        rcases List.mem_cons.mp hj with rfl | hj'
        · exact h
        · exact hrest j hj'
      · intro hall j hj
        exact hall j (List.mem_cons_of_mem _ hj)

theorem checkRecoveredCells_error (recovered cells : List (List Nat)) :
    ∀ (is : List Nat) (e : String),
      checkRecoveredCells recovered cells is = Except.error e →
      e = "Cell mismatch" := by
  intro is
  induction is with
  | nil =>
    intro e h
    exact Except.noConfusion h
  | cons i rest ih =>
    intro e h
    unfold checkRecoveredCells at h
    cases hc : equalHex (bytesToHex (recovered.getD i []))
        (bytesToHex (cells.getD i [])) with
    | false =>
      rw [hc, if_pos rfl] at h
      exact (Except.error.inj h).symm
    | true =>
      rw [hc, if_neg (by simp)] at h
      exact ih e h

theorem getD_bytes_valid {l : List (List Nat)}
    (h : ∀ c ∈ l, ∀ b ∈ c, b < 256) (i : Nat) :
    ∀ b ∈ l.getD i [], b < 256 := by
  by_cases hi : i < l.length
  · intro b hb
    rw [List.getD_eq_getElem l [] hi] at hb
    exact h _ (List.getElem_mem hi) b hb
  · intro b hb
    rw [List.getD_eq_default l [] (Nat.le_of_not_lt hi)] at hb
    simp at hb

/-! ## Claim theorems -/

/-- C1: In experiment 2, the versioned hash derived manually — the SHA-256
hash of the KZG commitment of the blob with its first byte overwritten by
the fixed version tag `0x01` — is compared against the first entry of
`blobVersionedHashes` returned by `prepareTransactionRequest` (the
`versionedHash` oracle value): the experiment succeeds exactly when the
two agree under `equalHex`, and any other outcome is the thrown error
`versioned hash mismatch`. -/
theorem experiment2_versioned_hash (blobToKzgCommitment : List Nat → List Nat)
    (sha : List Nat → List Nat) (blob versionedHash : String) :
    (experiment2 blobToKzgCommitment sha blob versionedHash = Except.ok () ↔
      equalHex (bytesToHex ((hexToBytes (sha256Hex sha
          (blobToKzgCommitment (hexToBytes blob)))).set 0 1))
        versionedHash = true) ∧
    (∀ e, experiment2 blobToKzgCommitment sha blob versionedHash =
        Except.error e → e = "versioned hash mismatch") := by
  simp only [experiment2]
  rw [versioned_hash_tag_eq_one]
  cases h : equalHex (bytesToHex ((hexToBytes (sha256Hex sha
      (blobToKzgCommitment (hexToBytes blob)))).set 0 1)) versionedHash with
  | false =>
    rw [if_pos rfl]
    constructor
    · exact ⟨fun hc => Except.noConfusion hc, fun hc => Bool.noConfusion hc⟩
    · intro e he
      exact (Except.error.inj he).symm
  | true =>
    rw [if_neg (by simp)]
    constructor
    · exact ⟨fun _ => rfl, fun _ => rfl⟩
    · intro e he
      exact Except.noConfusion he

/-- C1 witness: concrete oracles on which experiment 2 succeeds. -/
theorem experiment2_versioned_hash_witness :
    experiment2 demoCommitOracle demoShaOracle "0x" "0x0107" =
      Except.ok () :=
  (experiment2_versioned_hash demoCommitOracle demoShaOracle
    "0x" "0x0107").1.mpr (by decide)

/-- C2: If experiment 6 completes, the commitment computed by the native
`c-kzg` backend agrees (under case-insensitive hex comparison) with the
commitment computed by the WASM backend, and likewise the blob proofs
agree; when experiment 6 instead throws, the thrown message is
`Commitment mismatch` or `Proof mismatch`. -/
theorem experiment6_backends_agree
    (blobToKzgCommitment : List Nat → List Nat)
    (computeBlobKzgProof : List Nat → List Nat → List Nat)
    (blobToKZGCommitment : String → String)
    (computeBlobKZGProof : String → String → String)
    (blob commitment proof : String) :
    (experiment6 blobToKzgCommitment computeBlobKzgProof
        blobToKZGCommitment computeBlobKZGProof blob commitment proof =
        Except.ok () →
      equalHex (bytesToHex (blobToKzgCommitment (hexToBytes blob)))
          (blobToKZGCommitment blob) = true ∧
      equalHex (bytesToHex (computeBlobKzgProof (hexToBytes blob)
            (blobToKzgCommitment (hexToBytes blob))))
          (computeBlobKZGProof blob (blobToKZGCommitment blob)) = true) ∧
    (∀ e, experiment6 blobToKzgCommitment computeBlobKzgProof
        blobToKZGCommitment computeBlobKZGProof blob commitment proof =
        Except.error e →
      e = "Commitment mismatch" ∨ e = "Proof mismatch") := by
  constructor
  · intro h
    obtain ⟨a, hn, hw⟩ := except_bind_ok h
    obtain ⟨hc1, hp1⟩ := (experiment6Native_ok_iff _ _ _ _ _).mp (by
      cases a; exact hn)
    obtain ⟨hc2, hp2⟩ := (experiment6Wasm_ok_iff _ _ _ _ _).mp hw
    exact ⟨equalHex_trans hc1 (equalHex_symm hc2),
      equalHex_trans hp1 (equalHex_symm hp2)⟩
  · intro e h
    rcases except_bind_error h with hn | ⟨a, _, hw⟩
    · exact experiment6Native_error _ _ _ _ _ _ hn
    · exact experiment6Wasm_error _ _ _ _ _ _ hw

/-- C2 witness: concrete backends on which experiment 6 succeeds and the
two backends therefore agree. -/
theorem experiment6_backends_agree_witness :
    equalHex (bytesToHex (demoCommitOracle (hexToBytes "0x")))
        (demoWasmCommitOracle "0x") = true ∧
    equalHex (bytesToHex (demoProofOracle (hexToBytes "0x")
          (demoCommitOracle (hexToBytes "0x"))))
        (demoWasmProofOracle "0x" (demoWasmCommitOracle "0x")) = true :=
  (experiment6_backends_agree demoCommitOracle demoProofOracle
    demoWasmCommitOracle demoWasmProofOracle "0x" "0x02" "0x0201").1 rfl

/-- C9: In the shallow embedding the KZG operations are Lean functions and
hence deterministic, so the native `c-kzg` block of experiment 6 —
recomputing `blobToKzgCommitment` and `computeBlobKzgProof` on the same
blob and comparing with the values stored in experiment 1 — always agrees
under `equalHex` and never reaches the `Commitment mismatch` /
`Proof mismatch` branches.  The hypothesis states that the commitment
bytes are byte-valued (below 256), which every `Uint8Array` satisfies. -/
theorem experiment6Native_mismatch_unreachable
    (blobToKzgCommitment : List Nat → List Nat)
    (computeBlobKzgProof : List Nat → List Nat → List Nat)
    (blob : String)
    (hvalid : ∀ b ∈ blobToKzgCommitment (hexToBytes blob), b < 256) :
    equalHex (bytesToHex (blobToKzgCommitment (hexToBytes blob)))
      (experiment1Commitment blobToKzgCommitment blob) = true ∧
    equalHex (bytesToHex (computeBlobKzgProof (hexToBytes blob)
        (blobToKzgCommitment (hexToBytes blob))))
      (experiment1Proof blobToKzgCommitment computeBlobKzgProof blob) =
      true ∧
    experiment6Native blobToKzgCommitment computeBlobKzgProof blob
      (experiment1Commitment blobToKzgCommitment blob)
      (experiment1Proof blobToKzgCommitment computeBlobKzgProof blob) =
      Except.ok () := by
  have hround : hexToBytes (experiment1Commitment blobToKzgCommitment blob) =
      blobToKzgCommitment (hexToBytes blob) := by
    unfold experiment1Commitment
    exact hexToBytes_bytesToHex hvalid
  have hc : equalHex (bytesToHex (blobToKzgCommitment (hexToBytes blob)))
      (experiment1Commitment blobToKzgCommitment blob) = true :=
    equalHex_refl _
  have hp : equalHex (bytesToHex (computeBlobKzgProof (hexToBytes blob)
        (blobToKzgCommitment (hexToBytes blob))))
      (experiment1Proof blobToKzgCommitment computeBlobKzgProof blob) =
      true := by
    unfold experiment1Proof
    rw [hround]
    exact equalHex_refl _
  exact ⟨hc, hp, (experiment6Native_ok_iff _ _ _ _ _).mpr ⟨hc, hp⟩⟩

/-- C9 witness: concrete byte-valid backend functions. -/
theorem experiment6Native_mismatch_unreachable_witness :
    experiment6Native demoCommitOracle demoProofOracle "0x"
      (experiment1Commitment demoCommitOracle "0x")
      (experiment1Proof demoCommitOracle demoProofOracle "0x") =
      Except.ok () :=
  (experiment6Native_mismatch_unreachable demoCommitOracle demoProofOracle
    "0x" (by decide)).2.2

/-- C3: Experiment 8 succeeds exactly when the cells recovered by
`recoverCellsAndKzgProofs` from the subset at indices 64 through 127
(`slice(64, 128)` of indices and cells) coincide, cell by cell for every
index below `CELLS_PER_EXT_BLOB`, with the cells originally computed by
`computeCellsAndKzgProofs`; any other outcome is the thrown error
`Cell mismatch`.  The byte-validity hypotheses hold of every
`Uint8Array`. -/
theorem experiment8_recovered_cells
    (computeCellsAndKzgProofs : List Nat → List (List Nat) × List (List Nat))
    (recoverCellsAndKzgProofs :
      List Nat → List (List Nat) → List (List Nat) × List (List Nat))
    (blob : String)
    (hcells : ∀ c ∈ (computeCellsAndKzgProofs (hexToBytes blob)).1,
      ∀ b ∈ c, b < 256)
    (hrecovered : ∀ c ∈ (recoverCellsAndKzgProofs
        (jsSlice (List.range CELLS_PER_EXT_BLOB) 64 128)
        (jsSlice (computeCellsAndKzgProofs (hexToBytes blob)).1 64 128)).1,
      ∀ b ∈ c, b < 256) :
    (experiment8 computeCellsAndKzgProofs recoverCellsAndKzgProofs blob =
        Except.ok () ↔
      ∀ i < CELLS_PER_EXT_BLOB,
        ((recoverCellsAndKzgProofs
            (jsSlice (List.range CELLS_PER_EXT_BLOB) 64 128)
            (jsSlice (computeCellsAndKzgProofs (hexToBytes blob)).1
              64 128)).1).getD i [] =
          ((computeCellsAndKzgProofs (hexToBytes blob)).1).getD i []) ∧
    (∀ e, experiment8 computeCellsAndKzgProofs recoverCellsAndKzgProofs
        blob = Except.error e → e = "Cell mismatch") := by
  have hkey : experiment8 computeCellsAndKzgProofs recoverCellsAndKzgProofs
      blob =
      checkRecoveredCells
        (recoverCellsAndKzgProofs
          (jsSlice (List.range CELLS_PER_EXT_BLOB) 64 128)
          (jsSlice (computeCellsAndKzgProofs (hexToBytes blob)).1 64 128)).1
        (computeCellsAndKzgProofs (hexToBytes blob)).1
        (List.range CELLS_PER_EXT_BLOB) := rfl
  constructor
  · rw [hkey, checkRecoveredCells_ok_iff]
    constructor
    · intro h i hi
      exact (equalHex_bytesToHex_iff (getD_bytes_valid hrecovered i)
        (getD_bytes_valid hcells i)).mp (h i (List.mem_range.mpr hi))
    · intro h i hi
      exact (equalHex_bytesToHex_iff (getD_bytes_valid hrecovered i)
        (getD_bytes_valid hcells i)).mpr (h i (List.mem_range.mp hi))
  · intro e he
    rw [hkey] at he
    exact checkRecoveredCells_error _ _ _ e he

/-- C3 witness: concrete cell functions on which experiment 8 succeeds. -/
theorem experiment8_recovered_cells_witness :
    experiment8 demoCellsOracle demoRecoverOracle "0x" = Except.ok () :=
  (experiment8_recovered_cells demoCellsOracle demoRecoverOracle "0x"
    (by decide) (by decide)).1.mpr (by decide)

/-- C4 counterexample: with `PRIVATE_KEY` unset the ethers script
(`part_000` line 14, `process.env.PRIVATE_KEY || ''`) does not throw; its
module initialisation substitutes the empty string for the missing secret,
refuting the claim that every script signals a missing secret by
throwing. -/
theorem ethersPrivateKeyInit_no_throw :
    ethersPrivateKeyInit none = Except.ok "" := rfl

/-- C4 amended: when `PRIVATE_KEY` is unset (or empty, which JavaScript's
truthiness test also rejects), the viem-based scripts throw
`PRIVATE_KEY is not set` at module load, while the ethers-based script
does not throw and instead substitutes the empty string; with a nonempty
key both proceed with the key. -/
theorem privateKeyInit_behaviour (env : Option String) :
    ((env = none ∨ env = some "") →
      viemPrivateKeyInit env = Except.error "PRIVATE_KEY is not set" ∧
      ethersPrivateKeyInit env = Except.ok "") ∧
    (∀ s, s ≠ "" → env = some s →
      viemPrivateKeyInit env = Except.ok s ∧
      ethersPrivateKeyInit env = Except.ok s) := by
  constructor
  · rintro (rfl | rfl) <;> exact ⟨rfl, rfl⟩
  · rintro s hs rfl
    simp [viemPrivateKeyInit, ethersPrivateKeyInit, hs]

/-- C4 witness: the amended behaviour at the unset environment. -/
theorem privateKeyInit_behaviour_witness :
    viemPrivateKeyInit none = Except.error "PRIVATE_KEY is not set" ∧
    ethersPrivateKeyInit none = Except.ok "" :=
  (privateKeyInit_behaviour none).1 (Or.inl rfl)

/-- C5 counterexample: in experiment 4 the `verifyKzgProof` call returns
`false` (here through an always-false verification function) and the
script does not throw — it merely logs the boolean — refuting the claim
that every false verification result is thrown. -/
theorem experiment4_no_throw_on_false :
    experiment4 demoPointProofOracle demoFalseVerifyPointOracle "0x" "0x" =
      Except.ok false := rfl

/-- C5 amended: a false result of `verifyBlobKzgProof` (experiment 3)
makes the script throw (`Proof verification failed`, unless the versioned
hash check throws `Versioned hash mismatch` first), and a false result of
`verifyCellKzgProofBatch` (experiment 7) makes it throw
`Proof verification failed`; the result of `verifyKzgProof` in
experiment 4 is only logged and never thrown on. -/
theorem verification_failure_behaviour
    (sha : List Nat → List Nat)
    (verifyBlobKzgProof : List Nat → List Nat → List Nat → Bool)
    (computeCellsAndKzgProofs : List Nat → List (List Nat) × List (List Nat))
    (verifyCellKzgProofBatch :
      List (List Nat) → List Nat → List (List Nat) → List (List Nat) → Bool)
    (computeKzgProof : List Nat → List Nat → List Nat × List Nat)
    (verifyKzgProof : List Nat → List Nat → List Nat → List Nat → Bool)
    (blob commitment proof versionedHash : String) :
    (verifyBlobKzgProof (hexToBytes blob) (hexToBytes commitment)
        (hexToBytes proof) = false →
      experiment3WithProof sha verifyBlobKzgProof blob commitment proof
          versionedHash = Except.error "Versioned hash mismatch" ∨
      experiment3WithProof sha verifyBlobKzgProof blob commitment proof
          versionedHash = Except.error "Proof verification failed") ∧
    (verifyCellKzgProofBatch
        (List.replicate CELLS_PER_EXT_BLOB (hexToBytes commitment))
        (List.range CELLS_PER_EXT_BLOB)
        (computeCellsAndKzgProofs (hexToBytes blob)).1
        (computeCellsAndKzgProofs (hexToBytes blob)).2 = false →
      experiment7 computeCellsAndKzgProofs verifyCellKzgProofBatch blob
        commitment = Except.error "Proof verification failed") ∧
    (experiment4 computeKzgProof verifyKzgProof blob commitment =
      Except.ok (verifyKzgProof (hexToBytes commitment)
        (jsSlice (hexToBytes blob) 0 32)
        (computeKzgProof (hexToBytes blob)
          (jsSlice (hexToBytes blob) 0 32)).2
        (computeKzgProof (hexToBytes blob)
          (jsSlice (hexToBytes blob) 0 32)).1)) := by
  refine ⟨?_, ?_, rfl⟩
  · intro hfalse
    simp only [experiment3WithProof, hfalse]
    cases h : equalHex (bytesToHex ((hexToBytes (sha256Hex sha
        (hexToBytes commitment))).set 0
        (VERSIONED_HASH_VERSION_KZG.getD 0 0))) versionedHash with
    | false => left; simp
    | true => right; rw [if_neg (by simp), if_pos trivial]
  · intro hfalse
    simp only [experiment7, hfalse]
    rw [if_pos trivial]

/-- C5 witness: the amended behaviour at an always-false blob
verification function; the versioned-hash check happens to pass here, so
the thrown error is `Proof verification failed`. -/
theorem verification_failure_behaviour_witness :
    experiment3WithProof demoShaOracle demoFalseVerifyBlobOracle
        "0x" "0x" "0x" (bytesToHex ((hexToBytes (sha256Hex demoShaOracle
          (hexToBytes "0x"))).set 0 1)) =
        Except.error "Versioned hash mismatch" ∨
    experiment3WithProof demoShaOracle demoFalseVerifyBlobOracle
        "0x" "0x" "0x" (bytesToHex ((hexToBytes (sha256Hex demoShaOracle
          (hexToBytes "0x"))).set 0 1)) =
        Except.error "Proof verification failed" :=
  (verification_failure_behaviour demoShaOracle demoFalseVerifyBlobOracle
    demoCellsOracle demoFalseVerifyCellOracle demoPointProofOracle
    demoFalseVerifyPointOracle "0x" "0x" "0x"
    (bytesToHex ((hexToBytes (sha256Hex demoShaOracle
      (hexToBytes "0x"))).set 0 1))).1 rfl

/-- The ethers blob is the payload followed by zero padding. -/
theorem mkEthersBlob_eq (data : List Nat) :
    mkEthersBlob data =
      data ++ List.replicate (32 * 4096 - data.length) 0 := by
  unfold mkEthersBlob typedArraySet
  rw [List.take_zero, List.nil_append, Nat.zero_add, List.drop_replicate]

/-- C6: The blob constructed by the ethers script is a byte buffer of
exactly 32 (`BYTES_PER_FIELD_ELEMENT`) times 4096
(`FIELD_ELEMENTS_PER_BLOB`) bytes, holding the payload bytes at the start
and zeros everywhere after the payload. -/
theorem mkEthersBlob_shape (data : List Nat)
    (h : data.length ≤ 32 * 4096) :
    (mkEthersBlob data).length =
      BYTES_PER_FIELD_ELEMENT * FIELD_ELEMENTS_PER_BLOB ∧
    (∀ i < data.length, (mkEthersBlob data).getD i 0 = data.getD i 0) ∧
    (∀ i, data.length ≤ i → i < 32 * 4096 →
      (mkEthersBlob data).getD i 0 = 0) := by
  refine ⟨?_, ?_, ?_⟩
  · rw [mkEthersBlob_eq]
    simp only [List.length_append, List.length_replicate,
      BYTES_PER_FIELD_ELEMENT, FIELD_ELEMENTS_PER_BLOB]
    omega
  · intro i hi
    rw [mkEthersBlob_eq, List.getD_append _ _ _ _ hi]
  · intro i h1 _
    rw [mkEthersBlob_eq, List.getD_append_right _ _ _ _ h1]
    rcases Nat.lt_or_ge (i - data.length) (32 * 4096 - data.length) with
      hlt | hge
    · rw [List.getD_eq_getElem _ _ (by simpa using hlt),
        List.getElem_replicate]
    · exact List.getD_eq_default _ _ (by simpa using hge)

/-- C6 witness: the shape at the ethers script's actual payload, the
UTF-8 bytes of `'Long live the BLOBs!'`. -/
theorem mkEthersBlob_shape_witness :
    (mkEthersBlob ethersPayload).length =
      BYTES_PER_FIELD_ELEMENT * FIELD_ELEMENTS_PER_BLOB ∧
    (∀ i < ethersPayload.length,
      (mkEthersBlob ethersPayload).getD i 0 = ethersPayload.getD i 0) ∧
    (∀ i, ethersPayload.length ≤ i → i < 32 * 4096 →
      (mkEthersBlob ethersPayload).getD i 0 = 0) :=
  mkEthersBlob_shape ethersPayload (by decide)

/-- C7 counterexample: before the blob-count guard can throw, the script
has already performed KZG library calls — `cKzg.loadTrustedSetup`,
`loadKZG()` and `wasmKzg.loadTrustedSetup` all precede `toBlobs` and the
guard — so with a two-element blob list the guard throws but not before
every KZG call, refuting the claim as stated. -/
theorem blobGuard_after_kzg_setup :
    blobGuard ["0xaa", "0xbb"] =
      Except.error "Only one blob is assumed in this example" ∧
    ScriptCall.loadTrustedSetupNative ∈ callsBeforeBlobGuard ∧
    ScriptCall.loadTrustedSetupWasm ∈ callsBeforeBlobGuard ∧
    isKzgLibraryCall ScriptCall.loadTrustedSetupNative = true := by
  refine ⟨rfl, ?_, ?_, rfl⟩ <;> decide

/-- C7 amended: when `toBlobs` produces a blob list whose length is not
exactly 1, the script throws `Only one blob is assumed in this example`,
and none of the calls performed before the guard is a KZG
commitment/proof/verification computation or a network call (KZG
trusted-setup loading does occur before the guard); when the length is
exactly 1 it proceeds with `blobs[0]`. -/
theorem blobGuard_behaviour (blobs : List String) :
    (blobs.length ≠ 1 →
      blobGuard blobs =
        Except.error "Only one blob is assumed in this example" ∧
      ∀ c ∈ callsBeforeBlobGuard,
        isKzgComputeCall c = false ∧ isNetworkCall c = false) ∧
    (blobs.length = 1 → blobGuard blobs = Except.ok (blobs.getD 0 "")) := by
  constructor
  · intro hne
    refine ⟨?_, by decide⟩
    unfold blobGuard
    rw [if_pos hne]
  · intro heq
    unfold blobGuard
    rw [if_neg (by omega)]

/-- C7 witness: the amended behaviour at a two-element blob list. -/
theorem blobGuard_behaviour_witness :
    blobGuard ["0x01", "0x02"] =
      Except.error "Only one blob is assumed in this example" ∧
    ∀ c ∈ callsBeforeBlobGuard,
      isKzgComputeCall c = false ∧ isNetworkCall c = false :=
  (blobGuard_behaviour ["0x01", "0x02"]).1 (by decide)

/-- C8: `equalHex` compares hex strings case-insensitively: it returns
`true` exactly when the lowercasings of its arguments are equal; in
particular any hex string whose lowercasing is the canonical (lower-case)
encoding of a byte list — i.e. any encoding of those bytes differing only
in letter case — compares equal to that encoding and never triggers a
mismatch error. -/
theorem equalHex_case_insensitive (a b : String) :
    (equalHex a b = true ↔ jsToLower a = jsToLower b) ∧
    (∀ bs : List Nat, (∀ x ∈ bs, x < 256) → jsToLower b = bytesToHex bs →
      equalHex (bytesToHex bs) b = true) := by
  refine ⟨equalHex_iff a b, ?_⟩
  intro bs hv hl
  rw [equalHex_iff, jsToLower_bytesToHex hv, hl]

/-- C8 witness: two encodings of the same bytes differing only in case. -/
theorem equalHex_case_insensitive_witness : equalHex "0xAB" "0xab" = true :=
  (equalHex_case_insensitive "0xAB" "0xab").1.mpr (by decide)

/-- C10: In the ethers script the sidecar proof depends on the EIP mode:
for `'4844'` it is the single blob proof from `computeBlobKZGProof`, for
`'7594'` it is the concatenation of the per-cell proofs of
`computeCellsAndKZGProofs`; and the transaction's `blobWrapperVersion`
is 1 exactly in mode `'7594'`. -/
theorem ethersMainBlobFields_mode
    (blobToKZGCommitment : String → String)
    (computeBlobKZGProof : String → String → String)
    (computeCellsAndKZGProofsProofs : String → List String)
    (payload : List Nat) :
    (∀ eip, (ethersMainBlobFields blobToKZGCommitment computeBlobKZGProof
        computeCellsAndKZGProofsProofs eip payload).blobWrapperVersion =
        some 1 ↔ eip = "7594") ∧
    ((ethersMainBlobFields blobToKZGCommitment computeBlobKZGProof
        computeCellsAndKZGProofsProofs "4844" payload).blobs =
      [⟨bytesToHex (mkEthersBlob payload),
        blobToKZGCommitment (bytesToHex (mkEthersBlob payload)),
        computeBlobKZGProof (bytesToHex (mkEthersBlob payload))
          (blobToKZGCommitment (bytesToHex (mkEthersBlob payload)))⟩]) ∧
    ((ethersMainBlobFields blobToKZGCommitment computeBlobKZGProof
        computeCellsAndKZGProofsProofs "7594" payload).blobs =
      [⟨bytesToHex (mkEthersBlob payload),
        blobToKZGCommitment (bytesToHex (mkEthersBlob payload)),
        ethersConcat (computeCellsAndKZGProofsProofs
          (bytesToHex (mkEthersBlob payload)))⟩]) := by
  refine ⟨?_, ?_, ?_⟩
  · intro eip
    simp only [ethersMainBlobFields]
    by_cases h : eip = "7594" <;> simp [h]
  · simp [ethersMainBlobFields]
  · simp [ethersMainBlobFields]

/-- C10 witness: the mode-dependent fields at concrete oracles. -/
theorem ethersMainBlobFields_mode_witness :
    (ethersMainBlobFields demoWasmCommitOracle demoWasmProofOracle
      demoCellProofsOracle "7594" ethersPayload).blobWrapperVersion =
      some 1 :=
  (ethersMainBlobFields_mode demoWasmCommitOracle demoWasmProofOracle
    demoCellProofsOracle ethersPayload).1 "7594" |>.mpr rfl
